import Mathlib

/-!
Verification of the tankfill integration: a shallow embedding of the
volume geometry (`calc.py`) and of the daily-usage accumulator
(`sensor.py`), together with proofs of the specified properties.

The geometry functions use `π`, `arccos` and `sqrt`, so they are embedded
over `ℝ`.  The accumulator only uses ordered-field arithmetic and
rounding, so it is embedded polymorphically over a `LinearOrderedField`
with a `FloorRing` instance; concrete evaluations instantiate it at `ℚ`.
Python's `round(x, n)` is modelled by `round (10^n * x) / 10^n` with
Mathlib's `round`; the two differ only on exact ties, which no property
below touches.
-/

namespace Tankfill

/-- A local timestamp: a calendar date (as an ordinal) and a time of day.
Models the `datetime` values compared by `.date()` and truncated by
`.replace(hour=0, minute=0, second=0, microsecond=0)` in `sensor.py`. -/
structure LocalTime where
  date : ℤ
  timeOfDay : ℚ
deriving DecidableEq

/-- Truncation of a timestamp to the start of its day, modelling
`now.replace(hour=0, minute=0, second=0, microsecond=0)`. -/
def startOfDay (t : LocalTime) : LocalTime :=
  { date := t.date, timeOfDay := 0 }

/-- Python's `round(x, 1)` (1 decimal place). -/
def round1 {α : Type*} [LinearOrderedField α] [FloorRing α] (x : α) : α :=
  (round (10 * x) : ℤ) / 10

/-- Python's `round(x, 2)` (2 decimal places). -/
def round2 {α : Type*} [LinearOrderedField α] [FloorRing α] (x : α) : α :=
  (round (100 * x) : ℤ) / 100

/-- State of `TankDailyCostSensor`: the configured price and the published
native value. -/
structure CostSensor (α : Type*) where
  price_per_litre : α
  native_value : α
deriving DecidableEq

/-- `TankDailyCostSensor.update_cost`: publish `round(daily_usage * price, 2)`. -/
def update_cost {α : Type*} [LinearOrderedField α] [FloorRing α]
    (c : CostSensor α) (daily_usage : α) : CostSensor α :=
  { c with native_value := round2 (daily_usage * c.price_per_litre) }

/-- State of `TankDailyUsageSensor`: the accumulator fields `_daily_usage`,
`_last_volume`, the published `_attr_native_value`, `_attr_last_reset`, and
the optional back-reference `_cost_sensor`. -/
structure UsageSensor (α : Type*) where
  daily_usage : α
  last_volume : Option α
  native_value : Option α
  last_reset : Option LocalTime
  cost_sensor : Option (CostSensor α)
deriving DecidableEq

/-- Observable side effects of an accumulator operation:
`writeState` models `async_write_ha_state`, `costUpdate u` models the
cost-observer notification `self._cost_sensor.update_cost(u)`. -/
inductive Event (α : Type*) where
  | writeState
  | costUpdate (usage : α)
deriving DecidableEq

/-- The `if self._cost_sensor is not None: self._cost_sensor.update_cost(u)`
step shared by `update_usage` and `_async_midnight_reset`. -/
def notify_cost {α : Type*} [LinearOrderedField α] [FloorRing α]
    (s : UsageSensor α) (u : α) : UsageSensor α × List (Event α) :=
  match s.cost_sensor with
  | some c => ({ s with cost_sensor := some (update_cost c u) }, [Event.costUpdate u])
  | none => (s, [])

/-- `TankDailyUsageSensor.update_usage`: if a previous volume exists and the
new volume is lower, add the drop to `_daily_usage`; a rise (refill) is
ignored; in every case the baseline `_last_volume` becomes the new volume,
the rounded usage is published, and the cost observer is notified. -/
def update_usage {α : Type*} [LinearOrderedField α] [FloorRing α]
    (s : UsageSensor α) (new_volume : α) : UsageSensor α × List (Event α) :=
  let s1 :=
    match s.last_volume with
    | some lv =>
        if new_volume < lv then
          { s with daily_usage := s.daily_usage + (lv - new_volume) }
        else s
    | none => s
  let s2 := { s1 with last_volume := some new_volume,
                      native_value := some (round1 s1.daily_usage) }
  let step := notify_cost s2 s2.daily_usage
  (step.1, Event.writeState :: step.2)

/-- `TankDailyUsageSensor._async_midnight_reset`: zero the usage, drop the
baseline, publish `0.0`, stamp the reset at the start of the day, and
notify the cost observer with `0`. -/
def midnight_reset {α : Type*} [LinearOrderedField α] [FloorRing α]
    (s : UsageSensor α) (now : LocalTime) : UsageSensor α × List (Event α) :=
  let s1 := { s with daily_usage := 0, last_volume := none,
                     native_value := some 0,
                     last_reset := some (startOfDay now) }
  let step := notify_cost s1 0
  (step.1, Event.writeState :: step.2)

/-- The three behaviour classes of the persisted `last_reset` string:
empty (`if last_reset_str:` fails), unparseable (`datetime.fromisoformat`
raises), or parsed to a timestamp. -/
inductive StoredReset where
  | empty
  | malformed
  | parsed (t : LocalTime)
deriving DecidableEq

/-- `DailyUsageStoredData`: the persisted snapshot fields. -/
structure DailyUsageStoredData (α : Type*) where
  daily_usage : α
  last_volume : Option α
  last_reset : StoredReset
deriving DecidableEq

/-- `TankDailyUsageSensor.extra_restore_state_data`: a snapshot of the live
fields, with `last_reset` stamped at snapshot time (`dt_util.now()`). -/
def snapshot {α : Type*} [LinearOrderedField α] [FloorRing α]
    (s : UsageSensor α) (now : LocalTime) : DailyUsageStoredData α :=
  { daily_usage := s.daily_usage, last_volume := s.last_volume,
    last_reset := StoredReset.parsed now }

/-- The restore portion of `TankDailyUsageSensor.async_added_to_hass`: with
no snapshot nothing changes; otherwise, if the stored reset timestamp
parses and its date is strictly before today, reset (midnight was missed
while offline); otherwise adopt the stored usage and baseline.  In either
case the rounded usage is then published into `_attr_native_value`.  No
`async_write_ha_state` and no cost notification happen on this path. -/
def restore_state {α : Type*} [LinearOrderedField α] [FloorRing α]
    (s : UsageSensor α) (data : Option (DailyUsageStoredData α))
    (now : LocalTime) : UsageSensor α × List (Event α) :=
  match data with
  | none => (s, [])
  | some last_data =>
    let s1 :=
      match last_data.last_reset with
      | StoredReset.parsed last_reset_dt =>
          if last_reset_dt.date < now.date then
            { s with daily_usage := 0, last_volume := none,
                     last_reset := some (startOfDay now) }
          else
            { s with daily_usage := last_data.daily_usage,
                     last_volume := last_data.last_volume }
      | StoredReset.malformed =>
          { s with daily_usage := last_data.daily_usage,
                   last_volume := last_data.last_volume }
      | StoredReset.empty =>
          { s with daily_usage := last_data.daily_usage,
                   last_volume := last_data.last_volume }
    ({ s1 with native_value := some (round1 s1.daily_usage) }, [])

/-- `TankDailyUsageSensor.__init__` followed by `set_cost_sensor`: zero
usage, no baseline, nothing published yet. -/
def initUsageSensor {α : Type*} [LinearOrderedField α]
    (cost : Option (CostSensor α)) : UsageSensor α :=
  { daily_usage := 0, last_volume := none, native_value := none,
    last_reset := none, cost_sensor := cost }

/-- Feeding a sequence of volume samples one at a time. -/
def feed {α : Type*} [LinearOrderedField α] [FloorRing α]
    (s : UsageSensor α) (vs : List α) : UsageSensor α :=
  vs.foldl (fun t v => (update_usage t v).1) s

/-- Accumulator states reachable through the program's entry points:
construction, volume samples, midnight resets, and a restart that restores
a snapshot of a reachable state into a fresh sensor. -/
inductive Reachable {α : Type*} [LinearOrderedField α] [FloorRing α] :
    UsageSensor α → Prop where
  | init (cost : Option (CostSensor α)) : Reachable (initUsageSensor cost)
  | sample {s : UsageSensor α} (v : α) :
      Reachable s → Reachable (update_usage s v).1
  | midnight {s : UsageSensor α} (now : LocalTime) :
      Reachable s → Reachable (midnight_reset s now).1
  | restore {s : UsageSensor α} (t1 t2 : LocalTime)
      (cost : Option (CostSensor α)) : Reachable s →
      Reachable (restore_state (initUsageSensor cost)
        (some (snapshot s t1)) t2).1

/-- `calc.max_volume`: maximum volume of a horizontal cylindrical tank in
litres, `π * (diameter/2)^2 * length / 1000`. -/
noncomputable def max_volume (diameter length : ℝ) : ℝ :=
  Real.pi * (diameter / 2) ^ 2 * length / 1000

/-- `calc.segment_volume`: volume of a circular segment of a horizontal
cylinder, for a liquid depth measured from the bottom, clamped to `0` below
and to the full cylinder above. -/
noncomputable def segment_volume (fill_depth diameter length : ℝ) : ℝ :=
  if fill_depth ≤ 0 then 0
  else if diameter ≤ fill_depth then
    Real.pi * (diameter / 2) ^ 2 * length / 1000
  else
    (Real.arccos ((diameter / 2 - fill_depth) / (diameter / 2)) * (diameter / 2) ^ 2
        - (diameter / 2 - fill_depth) *
            Real.sqrt (2 * (diameter / 2) * fill_depth - fill_depth ^ 2))
      * length / 1000

/-- `calc.calculate_volume`: volume of liquid given the sensor distance from
the top.  Distances at or beyond the diameter clamp to empty, non-positive
distances clamp to full; at most half full uses the segment formula on the
liquid depth, more than half full subtracts the headspace segment from the
full volume. -/
noncomputable def calculate_volume (sensor_distance diameter length : ℝ) : ℝ :=
  if diameter ≤ sensor_distance then 0
  else if sensor_distance ≤ 0 then max_volume diameter length
  else if diameter - sensor_distance ≤ diameter / 2 then
    segment_volume (diameter - sensor_distance) diameter length
  else
    max_volume diameter length - segment_volume sensor_distance diameter length

/-- State of a stateless published sensor (`TankOilDepthSensor`,
`TankVolumeSensor`, `TankFillPercentageSensor`): just its native value. -/
structure SimpleSensor where
  native_value : Option ℝ

/-- `TankOilDepthSensor.update_depth`: publish `round(max(depth, 0.0), 1)`. -/
noncomputable def update_depth (sen : SimpleSensor) (depth : ℝ) : SimpleSensor :=
  { sen with native_value := some (round1 (max depth 0)) }

/-- `TankVolumeSensor.update_volume`: publish `round(volume, 1)`. -/
noncomputable def update_volume (sen : SimpleSensor) (volume : ℝ) : SimpleSensor :=
  { sen with native_value := some (round1 volume) }

/-- `TankFillPercentageSensor.update_percentage`: publish
`round(volume / max_vol * 100, 1)`, or `0` when `max_vol ≤ 0`. -/
noncomputable def update_percentage (sen : SimpleSensor)
    (volume max_vol : ℝ) : SimpleSensor :=
  { sen with native_value :=
      if 0 < max_vol then some (round1 (volume / max_vol * 100)) else some 0 }

/-- The five entities wired together in `async_setup_entry` (the cost
sensor lives inside the usage sensor, as in `set_cost_sensor`). -/
structure TankSystem where
  oil_depth : SimpleSensor
  volume : SimpleSensor
  percentage : SimpleSensor
  usage : UsageSensor ℝ

/-- The possible shapes of an incoming state-change event's new state:
absent (`None`), one of the two sentinel strings, a string that fails
`float(...)`, or a string parsing to a numeric value. -/
inductive RawState where
  | missing
  | unknown
  | unavailable
  | nonNumeric
  | numeric (value : ℝ)

/-- `_async_sensor_changed`: malformed or unavailable readings return with
no mutation and no events; a numeric reading drives all four sensors. -/
noncomputable def sensor_changed (diameter length : ℝ) (sys : TankSystem)
    (raw : RawState) : TankSystem × List (Event ℝ) :=
  match raw with
  | RawState.numeric depth =>
      let liquid_depth := diameter - depth
      let volume := calculate_volume depth diameter length
      let max_vol := max_volume diameter length
      let step := update_usage sys.usage volume
      ({ oil_depth := update_depth sys.oil_depth liquid_depth,
         volume := update_volume sys.volume volume,
         percentage := update_percentage sys.percentage volume max_vol,
         usage := step.1 }, step.2)
  | _ => (sys, [])

/-- A concrete cost sensor at the default price `0.55`, freshly constructed
(published value `0.0`). -/
def exCost : CostSensor ℚ :=
  { price_per_litre := 11 / 20, native_value := 0 }

/-- A concrete freshly constructed usage sensor wired to `exCost`. -/
def exUsage : UsageSensor ℚ := initUsageSensor (some exCost)

/-- A concrete persisted snapshot whose reset timestamp parses to a date
strictly before `exNow`. -/
def exStored : DailyUsageStoredData ℚ :=
  { daily_usage := 25 / 2, last_volume := some 450,
    last_reset := StoredReset.parsed { date := 100, timeOfDay := 1 / 3 } }

/-- A concrete current time one day after `exStored`'s reset stamp. -/
def exNow : LocalTime := { date := 101, timeOfDay := 3 / 4 }

/-- A concrete freshly constructed five-sensor system. -/
noncomputable def exSystem : TankSystem :=
  { oil_depth := { native_value := none },
    volume := { native_value := none },
    percentage := { native_value := none },
    usage := initUsageSensor none }

/-! ## Helper lemmas about the accumulator -/

theorem notify_cost_daily_usage {α : Type*} [LinearOrderedField α] [FloorRing α]
    (s : UsageSensor α) (u : α) :
    (notify_cost s u).1.daily_usage = s.daily_usage := by
  cases h : s.cost_sensor <;> simp [notify_cost, h]

theorem notify_cost_last_volume {α : Type*} [LinearOrderedField α] [FloorRing α]
    (s : UsageSensor α) (u : α) :
    (notify_cost s u).1.last_volume = s.last_volume := by
  cases h : s.cost_sensor <;> simp [notify_cost, h]

theorem notify_cost_native_value {α : Type*} [LinearOrderedField α] [FloorRing α]
    (s : UsageSensor α) (u : α) :
    (notify_cost s u).1.native_value = s.native_value := by
  cases h : s.cost_sensor <;> simp [notify_cost, h]

theorem notify_cost_last_reset {α : Type*} [LinearOrderedField α] [FloorRing α]
    (s : UsageSensor α) (u : α) :
    (notify_cost s u).1.last_reset = s.last_reset := by
  cases h : s.cost_sensor <;> simp [notify_cost, h]

theorem update_usage_last_volume {α : Type*} [LinearOrderedField α] [FloorRing α]
    (s : UsageSensor α) (v : α) :
    (update_usage s v).1.last_volume = some v := by
  simp [update_usage, notify_cost_last_volume]

theorem update_usage_daily_of_none {α : Type*} [LinearOrderedField α] [FloorRing α]
    (s : UsageSensor α) (v : α) (h : s.last_volume = none) :
    (update_usage s v).1.daily_usage = s.daily_usage := by
  simp [update_usage, notify_cost_daily_usage, h]

theorem update_usage_daily_of_ge {α : Type*} [LinearOrderedField α] [FloorRing α]
    (s : UsageSensor α) (v lv : α) (h : s.last_volume = some lv) (hge : lv ≤ v) :
    (update_usage s v).1.daily_usage = s.daily_usage := by
  simp [update_usage, notify_cost_daily_usage, h, if_neg (not_lt.2 hge)]

theorem update_usage_daily_of_lt {α : Type*} [LinearOrderedField α] [FloorRing α]
    (s : UsageSensor α) (v lv : α) (h : s.last_volume = some lv) (hlt : v < lv) :
    (update_usage s v).1.daily_usage = s.daily_usage + (lv - v) := by
  simp [update_usage, notify_cost_daily_usage, h, if_pos hlt]

theorem update_usage_daily_mono {α : Type*} [LinearOrderedField α] [FloorRing α]
    (s : UsageSensor α) (v : α) :
    s.daily_usage ≤ (update_usage s v).1.daily_usage := by
  cases h : s.last_volume with
  | none => rw [update_usage_daily_of_none s v h]
  | some lv =>
      rcases lt_or_le v lv with hlt | hge
      · rw [update_usage_daily_of_lt s v lv h hlt]; linarith
      · rw [update_usage_daily_of_ge s v lv h hge]

theorem midnight_reset_daily_usage {α : Type*} [LinearOrderedField α] [FloorRing α]
    (s : UsageSensor α) (now : LocalTime) :
    (midnight_reset s now).1.daily_usage = 0 := by
  simp [midnight_reset, notify_cost_daily_usage]

theorem round1_zero {α : Type*} [LinearOrderedField α] [FloorRing α] :
    round1 (0 : α) = 0 := by
  simp [round1]

theorem feed_chain_telescoping {α : Type*} [LinearOrderedField α] [FloorRing α] :
    ∀ (vs : List α) (s : UsageSensor α) (v0 : α),
      s.last_volume = some v0 →
      List.Chain (fun a b => b < a) v0 vs →
      (feed s vs).daily_usage
          = s.daily_usage + (v0 - (v0 :: vs).getLast (List.cons_ne_nil v0 vs)) ∧
        (feed s vs).last_volume
          = some ((v0 :: vs).getLast (List.cons_ne_nil v0 vs)) := by
  intro vs
  induction vs with
  | nil =>
      intro s v0 hbase hchain
      simp [feed, hbase]
  | cons v1 vs ih =>
      intro s v0 hbase hchain
      rcases List.chain_cons.1 hchain with ⟨h01, hchain1⟩
      have hbase1 : (update_usage s v1).1.last_volume = some v1 :=
        update_usage_last_volume s v1
      have hd1 : (update_usage s v1).1.daily_usage = s.daily_usage + (v0 - v1) :=
        update_usage_daily_of_lt s v1 v0 hbase h01
      have hfeed : feed s (v1 :: vs) = feed (update_usage s v1).1 vs := by
        simp [feed]
      rcases ih (update_usage s v1).1 v1 hbase1 hchain1 with ⟨ihd, ihl⟩
      have hlast : (v0 :: v1 :: vs).getLast (List.cons_ne_nil v0 (v1 :: vs))
          = (v1 :: vs).getLast (List.cons_ne_nil v1 vs) :=
        List.getLast_cons (List.cons_ne_nil v1 vs)
      refine ⟨?_, ?_⟩
      · rw [hfeed, ihd, hd1, hlast]; ring
      · rw [hfeed, ihl, hlast]

/-- C1: starting from any accumulator state whose baseline `lastVolume` is
`v0`, feeding a strictly decreasing sequence of volumes one at a time
increases `dailyUsage` by exactly `v0` minus the last sample — the sum of
the per-step drops — independently of how the total drop is split into
steps, and leaves the baseline at the last sample. -/
theorem daily_usage_telescoping {α : Type*} [LinearOrderedField α] [FloorRing α]
    (s : UsageSensor α) (v0 : α) (vs : List α)
    (hbase : s.last_volume = some v0)
    (hchain : List.Chain (fun a b => b < a) v0 vs) :
    (feed s vs).daily_usage
        = s.daily_usage + (v0 - (v0 :: vs).getLast (List.cons_ne_nil v0 vs)) ∧
      (feed s vs).last_volume
        = some ((v0 :: vs).getLast (List.cons_ne_nil v0 vs)) :=
  feed_chain_telescoping vs s v0 hbase hchain

/-- Witness for C1 at a concrete state: baseline 500, samples 490 then 480,
total accumulated usage 20. -/
theorem daily_usage_telescoping_witness :
    (update_usage exUsage (500 : ℚ)).1.last_volume = some 500 ∧
    List.Chain (fun a b : ℚ => b < a) 500 [490, 480] ∧
    ((feed (update_usage exUsage (500 : ℚ)).1 [490, 480]).daily_usage
        = (update_usage exUsage (500 : ℚ)).1.daily_usage
          + (500 - ((500 : ℚ) :: [490, 480]).getLast
              (List.cons_ne_nil 500 [490, 480])) ∧
      (feed (update_usage exUsage (500 : ℚ)).1 [490, 480]).last_volume
        = some (((500 : ℚ) :: [490, 480]).getLast
            (List.cons_ne_nil 500 [490, 480]))) :=
  ⟨by decide, by norm_num [List.chain_cons],
    daily_usage_telescoping (update_usage exUsage (500 : ℚ)).1 500 [490, 480]
      (by decide) (by norm_num [List.chain_cons])⟩

/-- C6: `update_usage` leaves `dailyUsage` unchanged both when no baseline
exists (first reading after construction or reset) and when the new volume
is at least the baseline (refill or no change: the delta is discarded); in
every such case the baseline is set to the new volume afterwards. -/
theorem daily_usage_baseline_refill_frame {α : Type*}
    [LinearOrderedField α] [FloorRing α] (s : UsageSensor α) (v : α)
    (h : s.last_volume = none ∨ ∃ lv, s.last_volume = some lv ∧ lv ≤ v) :
    (update_usage s v).1.daily_usage = s.daily_usage ∧
      (update_usage s v).1.last_volume = some v := by
  refine ⟨?_, update_usage_last_volume s v⟩
  rcases h with h | ⟨lv, h, hge⟩
  · exact update_usage_daily_of_none s v h
  · exact update_usage_daily_of_ge s v lv h hge

/-- Witness for C6 at a concrete state: a fresh sensor (no baseline) fed an
arbitrary first volume 5 keeps usage at 0 and adopts the baseline. -/
theorem daily_usage_baseline_refill_frame_witness :
    (exUsage.last_volume = none ∨
      ∃ lv, exUsage.last_volume = some lv ∧ lv ≤ (5 : ℚ)) ∧
    ((update_usage exUsage (5 : ℚ)).1.daily_usage = exUsage.daily_usage ∧
      (update_usage exUsage (5 : ℚ)).1.last_volume = some 5) :=
  ⟨Or.inl rfl, daily_usage_baseline_refill_frame exUsage 5 (Or.inl rfl)⟩

/-- C7: the midnight reset unconditionally zeroes `dailyUsage`, clears the
baseline, stamps the reset at the start of the day, publishes `0`, and —
when the cost observer is wired — notifies it with `0`, whereupon the
published daily cost becomes `0`. -/
theorem midnight_reset_postcondition {α : Type*}
    [LinearOrderedField α] [FloorRing α] (s : UsageSensor α)
    (now : LocalTime) (c : CostSensor α) (h : s.cost_sensor = some c) :
    (midnight_reset s now).1.daily_usage = 0 ∧
    (midnight_reset s now).1.last_volume = none ∧
    (midnight_reset s now).1.last_reset = some (startOfDay now) ∧
    (midnight_reset s now).1.native_value = some 0 ∧
    (midnight_reset s now).2 = [Event.writeState, Event.costUpdate 0] ∧
    (midnight_reset s now).1.cost_sensor = some (update_cost c 0) ∧
    (update_cost c 0).native_value = 0 := by
  refine ⟨?_, ?_, ?_, ?_, ?_, ?_, ?_⟩ <;>
    simp [midnight_reset, notify_cost, update_cost, round2, h]

/-- Witness for C7 at a concrete state with a wired cost observer. -/
theorem midnight_reset_postcondition_witness :
    exUsage.cost_sensor = some exCost ∧
    ((midnight_reset exUsage exNow).1.daily_usage = 0 ∧
      (midnight_reset exUsage exNow).1.last_volume = none ∧
      (midnight_reset exUsage exNow).1.last_reset = some (startOfDay exNow) ∧
      (midnight_reset exUsage exNow).1.native_value = some 0 ∧
      (midnight_reset exUsage exNow).2
        = [Event.writeState, Event.costUpdate 0] ∧
      (midnight_reset exUsage exNow).1.cost_sensor
        = some (update_cost exCost 0) ∧
      (update_cost exCost 0).native_value = 0) :=
  ⟨rfl, midnight_reset_postcondition exUsage exNow exCost rfl⟩

/-- C8: every reachable accumulator state has non-negative `dailyUsage`,
and no volume sample ever decreases it (within a day the sequence of
`dailyUsage` values is non-decreasing; only the reset paths return it
to `0`). -/
theorem daily_usage_nonneg_and_monotone {α : Type*}
    [LinearOrderedField α] [FloorRing α] (s : UsageSensor α) :
    (Reachable s → 0 ≤ s.daily_usage) ∧
    ∀ v : α, s.daily_usage ≤ (update_usage s v).1.daily_usage := by
  refine ⟨?_, fun v => update_usage_daily_mono s v⟩
  intro h
  induction h with
  | init cost => simp [initUsageSensor]
  | sample v hr ih => exact le_trans ih (update_usage_daily_mono _ v)
  | midnight now hr ih => rw [midnight_reset_daily_usage]
  | restore t1 t2 cost hr ih =>
      simp only [restore_state, snapshot]
      split
      · simp
      · simpa [initUsageSensor] using ih

/-- Witness for C8 at the concrete initial state and sample 5. -/
theorem daily_usage_nonneg_and_monotone_witness :
    0 ≤ exUsage.daily_usage ∧
      exUsage.daily_usage ≤ (update_usage exUsage (5 : ℚ)).1.daily_usage :=
  ⟨(daily_usage_nonneg_and_monotone exUsage).1 (Reachable.init (some exCost)),
    (daily_usage_nonneg_and_monotone exUsage).2 5⟩

/-- C2 (amended): when the persisted reset timestamp parses to a date
strictly earlier than the current date, the startup recovery path produces
the same resulting accumulator state as the midnight reset — `dailyUsage`
zero, baseline absent, reset stamped at the start of the current day,
published value `0` — but it performs no observer notifications at all: in
particular the cost observer is not notified. -/
theorem recovery_matches_midnight_state {α : Type*}
    [LinearOrderedField α] [FloorRing α] (s : UsageSensor α)
    (d : DailyUsageStoredData α) (t now : LocalTime)
    (hparse : d.last_reset = StoredReset.parsed t)
    (hdate : t.date < now.date) :
    (restore_state s (some d) now).1.daily_usage
        = (midnight_reset s now).1.daily_usage ∧
    (restore_state s (some d) now).1.last_volume
        = (midnight_reset s now).1.last_volume ∧
    (restore_state s (some d) now).1.last_reset
        = (midnight_reset s now).1.last_reset ∧
    (restore_state s (some d) now).1.native_value
        = (midnight_reset s now).1.native_value ∧
    (restore_state s (some d) now).1.daily_usage = 0 ∧
    (restore_state s (some d) now).1.last_volume = none ∧
    (restore_state s (some d) now).1.last_reset = some (startOfDay now) ∧
    (restore_state s (some d) now).1.native_value = some 0 ∧
    (restore_state s (some d) now).2 = [] := by
  refine ⟨?_, ?_, ?_, ?_, ?_, ?_, ?_, ?_, ?_⟩ <;>
    simp [restore_state, midnight_reset, notify_cost_daily_usage,
      notify_cost_last_volume, notify_cost_last_reset,
      notify_cost_native_value, hparse, if_pos hdate, round1_zero]

/-- Witness for C2's amended statement at a concrete snapshot one day
stale. -/
theorem recovery_matches_midnight_state_witness :
    exStored.last_reset
        = StoredReset.parsed { date := 100, timeOfDay := 1 / 3 } ∧
    (100 : ℤ) < exNow.date ∧
    ((restore_state exUsage (some exStored) exNow).1.daily_usage
        = (midnight_reset exUsage exNow).1.daily_usage ∧
      (restore_state exUsage (some exStored) exNow).1.last_volume
        = (midnight_reset exUsage exNow).1.last_volume ∧
      (restore_state exUsage (some exStored) exNow).1.last_reset
        = (midnight_reset exUsage exNow).1.last_reset ∧
      (restore_state exUsage (some exStored) exNow).1.native_value
        = (midnight_reset exUsage exNow).1.native_value ∧
      (restore_state exUsage (some exStored) exNow).1.daily_usage = 0 ∧
      (restore_state exUsage (some exStored) exNow).1.last_volume = none ∧
      (restore_state exUsage (some exStored) exNow).1.last_reset
        = some (startOfDay exNow) ∧
      (restore_state exUsage (some exStored) exNow).1.native_value
        = some 0 ∧
      (restore_state exUsage (some exStored) exNow).2 = []) :=
  ⟨rfl, by decide,
    recovery_matches_midnight_state exUsage exStored
      { date := 100, timeOfDay := 1 / 3 } exNow rfl (by decide)⟩

/-- Counterexample to C2 as stated: at a concrete stale snapshot the
recovery path emits no notifications, while the midnight reset emits a
state write and a cost notification with `0`; the two notification traces
differ, so recovery does not produce "the same observer notifications" as
`onMidnightBoundary(now)`. -/
theorem recovery_notifications_counterexample :
    (restore_state exUsage (some exStored) exNow).2 = [] ∧
    (midnight_reset exUsage exNow).2
        = [Event.writeState, Event.costUpdate 0] ∧
    (restore_state exUsage (some exStored) exNow).2
        ≠ (midnight_reset exUsage exNow).2 := by
  refine ⟨rfl, rfl, ?_⟩
  decide

/-- C9: a missing, sentinel, or non-numeric incoming state leaves the
whole system untouched and emits no events (and, the handler being a total
function, raises no error); a parsed distance at or beyond the diameter
still computes to volume `0` rather than being rejected. -/
theorem malformed_input_ignored (d l : ℝ) (sys : TankSystem) (raw : RawState)
    (h : ∀ x : ℝ, raw ≠ RawState.numeric x) :
    sensor_changed d l sys raw = (sys, []) ∧
    ∀ x : ℝ, d ≤ x → calculate_volume x d l = 0 := by
  constructor
  · cases raw with
    | numeric x => exact absurd rfl (h x)
    | missing => rfl
    | unknown => rfl
    | unavailable => rfl
    | nonNumeric => rfl
  · intro x hx
    simp [calculate_volume, if_pos hx]

/-- Witness for C9 at the sentinel value "unknown" on a concrete system. -/
theorem malformed_input_ignored_witness :
    (∀ x : ℝ, RawState.unknown ≠ RawState.numeric x) ∧
    (sensor_changed 100 200 exSystem RawState.unknown = (exSystem, []) ∧
      ∀ x : ℝ, 100 ≤ x → calculate_volume x 100 200 = 0) :=
  ⟨(fun _ h => nomatch h),
    malformed_input_ignored 100 200 exSystem RawState.unknown
      (fun _ h => nomatch h)⟩

/-- C10 (amended): every processed reading publishes oil depth
`round(max(diameter - sensorDistance, 0), 1)`; a distance beyond the
diameter publishes `0`; a negative distance yields a pre-rounding depth
strictly greater than the diameter (no upper clamp), though rounding to one
decimal place can map the published value back onto the diameter itself. -/
theorem oil_depth_clamped_below_only (d l s : ℝ) (sys : TankSystem)
    (hd : 0 < d) :
    (sensor_changed d l sys (RawState.numeric s)).1.oil_depth.native_value
        = some (round1 (max (d - s) 0)) ∧
    (d < s →
      (sensor_changed d l sys (RawState.numeric s)).1.oil_depth.native_value
        = some 0) ∧
    (s < 0 → d < max (d - s) 0) := by
  refine ⟨?_, ?_, ?_⟩
  · simp [sensor_changed, update_depth]
  · intro hs
    have hmax : max (d - s) 0 = 0 := max_eq_right (by linarith)
    simp [sensor_changed, update_depth, hmax, round1_zero]
  · intro hs
    have hmax : max (d - s) 0 = d - s := max_eq_left (by linarith)
    rw [hmax]
    linarith

/-- Witness for C10's amended statement at `d = 100`, `s = 30`. -/
theorem oil_depth_clamped_below_only_witness :
    (0 : ℝ) < 100 ∧
    ((sensor_changed 100 200 exSystem
          (RawState.numeric 30)).1.oil_depth.native_value
        = some (round1 (max ((100 : ℝ) - 30) 0)) ∧
      ((100 : ℝ) < 30 →
        (sensor_changed 100 200 exSystem
            (RawState.numeric 30)).1.oil_depth.native_value = some 0) ∧
      ((30 : ℝ) < 0 → (100 : ℝ) < max ((100 : ℝ) - 30) 0)) :=
  ⟨by norm_num, oil_depth_clamped_below_only 100 200 30 exSystem (by norm_num)⟩

/-- Counterexample to C10 as stated: with diameter `100` the negative
sensor distance `-0.01` gives depth `100.01`, which rounds to a published
value of exactly `100` — not a value greater than the diameter. -/
theorem oil_depth_negative_counterexample :
    (sensor_changed 100 200 exSystem
        (RawState.numeric (-(1 / 100)))).1.oil_depth.native_value
      = some 100 ∧ ¬ (100 : ℝ) < 100 := by
  refine ⟨?_, lt_irrefl 100⟩
  have hmax : max ((100 : ℝ) - -(1 / 100)) 0 = 10001 / 100 :=
    by rw [max_eq_left (by norm_num)]; norm_num
  have hround : round ((10001 : ℝ) / 10) = 1000 := by
    rw [round_eq]
    norm_num
  simp [sensor_changed, update_depth, hmax, round1]
  norm_num [hround]

/-! ## Geometry properties -/

theorem segment_volume_add_complement (d l x : ℝ) (hd : 0 < d)
    (hx0 : 0 ≤ x) (hxd : x ≤ d) :
    segment_volume x d l + segment_volume (d - x) d l = max_volume d l := by
  rcases eq_or_lt_of_le hx0 with hx0e | hx0l
  · rw [← hx0e]
    unfold segment_volume max_volume
    rw [if_pos le_rfl]
    rw [if_neg (by linarith : ¬ d - 0 ≤ 0), if_pos (by linarith : d ≤ d - 0)]
    ring
  · rcases eq_or_lt_of_le hxd with hxde | hxdl
    · rw [hxde]
      unfold segment_volume max_volume
      rw [if_neg (by linarith : ¬ d ≤ 0), if_pos le_rfl,
        if_pos (by linarith : d - d ≤ 0)]
      ring
    · have h1 : ¬ x ≤ 0 := not_le.2 hx0l
      have h2 : ¬ d ≤ x := not_le.2 hxdl
      have h3 : ¬ d - x ≤ 0 := not_le.2 (by linarith)
      have h4 : ¬ d ≤ d - x := not_le.2 (by linarith)
      unfold segment_volume max_volume
      rw [if_neg h1, if_neg h2, if_neg h3, if_neg h4]
      have harg : (d / 2 - (d - x)) / (d / 2) = -((d / 2 - x) / (d / 2)) := by
        ring
      rw [harg, Real.arccos_neg]
      have hrad : 2 * (d / 2) * (d - x) - (d - x) ^ 2
          = 2 * (d / 2) * x - x ^ 2 := by ring
      rw [hrad]
      ring

theorem calculate_volume_eq_segment (d l s : ℝ) (hd : 0 < d)
    (hs0 : 0 < s) (hsd : s < d) :
    calculate_volume s d l = segment_volume (d - s) d l := by
  unfold calculate_volume
  rw [if_neg (not_le.2 hsd), if_neg (not_le.2 hs0)]
  by_cases hhalf : d - s ≤ d / 2
  · rw [if_pos hhalf]
  · rw [if_neg hhalf]
    have h := segment_volume_add_complement d l s hd hs0.le hsd.le
    linarith

/-- C3: volumes of complementary segments sum to the full tank volume for
every depth in `[0, d]`, and for every in-range sensor distance the two
computation branches of `calculate_volume` agree exactly with the direct
segment formula applied to the liquid depth. -/
theorem segment_symmetry_and_branch_consistency (d l x s : ℝ) (hd : 0 < d)
    (hl : 0 < l) (hx0 : 0 ≤ x) (hxd : x ≤ d) (hs0 : 0 < s) (hsd : s < d) :
    segment_volume x d l + segment_volume (d - x) d l = max_volume d l ∧
    calculate_volume s d l = segment_volume (d - s) d l :=
  ⟨segment_volume_add_complement d l x hd hx0 hxd,
    calculate_volume_eq_segment d l s hd hs0 hsd⟩

/-- Witness for C3 at `d = 2`, `l = 1`, `x = 1`, `s = 1`. -/
theorem segment_symmetry_and_branch_consistency_witness :
    (0 : ℝ) < 2 ∧ (0 : ℝ) < 1 ∧ (0 : ℝ) ≤ 1 ∧ (1 : ℝ) ≤ 2 ∧
    (0 : ℝ) < 1 ∧ (1 : ℝ) < 2 ∧
    (segment_volume 1 2 1 + segment_volume (2 - 1) 2 1 = max_volume 2 1 ∧
      calculate_volume 1 2 1 = segment_volume (2 - 1) 2 1) :=
  ⟨by norm_num, by norm_num, by norm_num, by norm_num, by norm_num,
    by norm_num,
    segment_symmetry_and_branch_consistency 2 1 1 1 (by norm_num)
      (by norm_num) (by norm_num) (by norm_num) (by norm_num) (by norm_num)⟩

/-- C4: `calculate_volume` is exactly `max_volume` at distance `0` and `0`
at distance `d`, and clamps every out-of-range distance to those boundary
values, never erring. -/
theorem calculate_volume_boundary_clamping (d l s : ℝ) (hd : 0 < d)
    (hl : 0 < l) :
    calculate_volume 0 d l = max_volume d l ∧
    calculate_volume d d l = 0 ∧
    (s ≤ 0 → calculate_volume s d l = max_volume d l) ∧
    (d ≤ s → calculate_volume s d l = 0) := by
  refine ⟨?_, ?_, ?_, ?_⟩
  · unfold calculate_volume
    rw [if_neg (by linarith : ¬ d ≤ 0), if_pos le_rfl]
  · unfold calculate_volume
    rw [if_pos le_rfl]
  · intro hs
    unfold calculate_volume
    rw [if_neg (by linarith : ¬ d ≤ s), if_pos hs]
  · intro hs
    unfold calculate_volume
    rw [if_pos hs]

/-- Witness for C4 at `d = 100`, `l = 200`, `s = -5`. -/
theorem calculate_volume_boundary_clamping_witness :
    (0 : ℝ) < 100 ∧ (0 : ℝ) < 200 ∧
    (calculate_volume 0 100 200 = max_volume 100 200 ∧
      calculate_volume 100 100 200 = 0 ∧
      ((-5 : ℝ) ≤ 0 → calculate_volume (-5) 100 200 = max_volume 100 200) ∧
      ((100 : ℝ) ≤ -5 → calculate_volume (-5) 100 200 = 0)) :=
  ⟨by norm_num, by norm_num,
    calculate_volume_boundary_clamping 100 200 (-5) (by norm_num)
      (by norm_num)⟩

/-- The circular-segment area as a function of the apothem distance
`m = radius - fillDepth`: the middle branch of `segment_volume` is
`chord_area r m * length / 1000`. -/
noncomputable def chord_area (r m : ℝ) : ℝ :=
  Real.arccos (m / r) * r ^ 2 - m * Real.sqrt (r ^ 2 - m ^ 2)

theorem chord_area_hasDerivAt (r : ℝ) (hr : 0 < r) (m : ℝ)
    (hm : m ∈ Set.Ioo (-r) r) :
    HasDerivAt (chord_area r) (-2 * Real.sqrt (r ^ 2 - m ^ 2)) m := by
  obtain ⟨hm1, hm2⟩ := hm
  have hlt1 : m / r < 1 := (div_lt_one hr).2 hm2
  have hgt1 : -1 < m / r := by
    rw [neg_lt, ← neg_div]
    exact (div_lt_one hr).2 (by linarith)
  have hpos : 0 < r ^ 2 - m ^ 2 := by nlinarith
  have hsqrtpos : 0 < Real.sqrt (r ^ 2 - m ^ 2) := Real.sqrt_pos.2 hpos
  have hdiv : HasDerivAt (fun y : ℝ => y / r) (1 / r) m := by
    simpa using (hasDerivAt_id m).div_const r
  have harccos : HasDerivAt (fun y : ℝ => Real.arccos (y / r))
      (-(1 / Real.sqrt (1 - (m / r) ^ 2)) * (1 / r)) m :=
    (Real.hasDerivAt_arccos (ne_of_gt hgt1) (ne_of_lt hlt1)).comp m hdiv
  have hterm1 : HasDerivAt (fun y : ℝ => Real.arccos (y / r) * r ^ 2)
      (-(1 / Real.sqrt (1 - (m / r) ^ 2)) * (1 / r) * r ^ 2) m :=
    harccos.mul_const (r ^ 2)
  have hpoly : HasDerivAt (fun y : ℝ => r ^ 2 - y ^ 2) (-(2 * m)) m := by
    simpa using (hasDerivAt_pow 2 m).const_sub (r ^ 2)
  have hsqrt : HasDerivAt (fun y : ℝ => Real.sqrt (r ^ 2 - y ^ 2))
      (1 / (2 * Real.sqrt (r ^ 2 - m ^ 2)) * -(2 * m)) m :=
    (Real.hasDerivAt_sqrt (ne_of_gt hpos)).comp m hpoly
  have hterm2 : HasDerivAt (fun y : ℝ => y * Real.sqrt (r ^ 2 - y ^ 2))
      (1 * Real.sqrt (r ^ 2 - m ^ 2)
        + m * (1 / (2 * Real.sqrt (r ^ 2 - m ^ 2)) * -(2 * m))) m :=
    (hasDerivAt_id m).mul hsqrt
  have htotal := hterm1.sub hterm2
  convert htotal using 1
  have hsim : Real.sqrt (1 - (m / r) ^ 2) = Real.sqrt (r ^ 2 - m ^ 2) / r := by
    rw [show (1 : ℝ) - (m / r) ^ 2 = (r ^ 2 - m ^ 2) / r ^ 2 by
        field_simp,
      Real.sqrt_div hpos.le, Real.sqrt_sq hr.le]
  rw [hsim]
  have hu : Real.sqrt (r ^ 2 - m ^ 2) ^ 2 = r ^ 2 - m ^ 2 :=
    Real.sq_sqrt hpos.le
  have hune : Real.sqrt (r ^ 2 - m ^ 2) ≠ 0 := ne_of_gt hsqrtpos
  field_simp
  linear_combination (-2 * Real.sqrt (r ^ 2 - m ^ 2) * r) * hu

theorem chord_area_strictAntiOn (r : ℝ) (hr : 0 < r) :
    StrictAntiOn (chord_area r) (Set.Icc (-r) r) := by
  apply strictAntiOn_of_deriv_neg (convex_Icc _ _)
  · exact (((Real.continuous_arccos.comp
        (continuous_id.div_const r)).mul continuous_const).sub
      (continuous_id.mul (Real.continuous_sqrt.comp
        (continuous_const.sub (continuous_pow 2))))).continuousOn
  · intro m hm
    rw [interior_Icc] at hm
    rw [(chord_area_hasDerivAt r hr m hm).deriv]
    have hpos : 0 < Real.sqrt (r ^ 2 - m ^ 2) := by
      apply Real.sqrt_pos.2
      obtain ⟨h1, h2⟩ := hm
      nlinarith
    linarith

theorem segment_volume_eq_chord_area (d l x : ℝ) (hx0 : 0 < x)
    (hxd : x < d) :
    segment_volume x d l = chord_area (d / 2) (d / 2 - x) * (l / 1000) := by
  unfold segment_volume chord_area
  rw [if_neg (not_le.2 hx0), if_neg (not_le.2 hxd)]
  rw [show (d / 2) ^ 2 - (d / 2 - x) ^ 2 = 2 * (d / 2) * x - x ^ 2 by ring]
  ring

/-- C5: for fixed `d > 0` and `l > 0`, `calculate_volume` is strictly
decreasing in the sensor distance over the open interval `(0, d)`. -/
theorem calculate_volume_strictly_decreasing (d l s1 s2 : ℝ) (hd : 0 < d)
    (hl : 0 < l) (h0 : 0 < s1) (h12 : s1 < s2) (h2 : s2 < d) :
    calculate_volume s2 d l < calculate_volume s1 d l := by
  have hs1d : s1 < d := lt_trans h12 h2
  have hs20 : 0 < s2 := lt_trans h0 h12
  rw [calculate_volume_eq_segment d l s1 hd h0 hs1d,
    calculate_volume_eq_segment d l s2 hd hs20 h2,
    segment_volume_eq_chord_area d l (d - s1) (by linarith) (by linarith),
    segment_volume_eq_chord_area d l (d - s2) (by linarith) (by linarith)]
  apply mul_lt_mul_of_pos_right ?_ (by positivity)
  have hr : 0 < d / 2 := by linarith
  exact chord_area_strictAntiOn (d / 2) hr
    (Set.mem_Icc.2 ⟨by linarith, by linarith⟩)
    (Set.mem_Icc.2 ⟨by linarith, by linarith⟩)
    (by linarith)

/-- Witness for C5 at `d = 2`, `l = 1`, `s1 = 1/2`, `s2 = 1`. -/
theorem calculate_volume_strictly_decreasing_witness :
    (0 : ℝ) < 2 ∧ (0 : ℝ) < 1 ∧ (0 : ℝ) < 1 / 2 ∧ (1 / 2 : ℝ) < 1 ∧
    (1 : ℝ) < 2 ∧ calculate_volume 1 2 1 < calculate_volume (1 / 2) 2 1 :=
  ⟨by norm_num, by norm_num, by norm_num, by norm_num, by norm_num,
    calculate_volume_strictly_decreasing 2 1 (1 / 2) 1 (by norm_num)
      (by norm_num) (by norm_num) (by norm_num) (by norm_num)⟩

end Tankfill
